import Mathlib

/-!
Shallow embedding of the interview-session flow of the resume_matcher
frontend (src/frontend/src/pages/MockInterview.jsx).  The component's React
state hooks become fields of `SessionState`; each event handler becomes a
pure function on that state.  Outbound HTTP calls (axios.post), media
streams opened through getUserMedia, and timeout-forced stops are recorded
in ghost fields (`requests`, `streamsOpened` / `audioStream`, `forcedStops`)
so that the observable external effects of each handler can be stated.
-/

namespace MockInterview

/-- Per-question input mode, stored per index in the inputMode object
(MockInterview.jsx line 45); missing entries default to audio. -/
inductive InputMode where
  | audio
  | text
  deriving DecidableEq, Repr

/-- One entry of the results object (MockInterview.jsx lines 115-123 and
261-269): score, feedback, transcribed/typed text, answered flag. -/
structure QResult where
  score : ℚ
  feedback : String
  text : Option String
  isAnswered : Bool
  deriving DecidableEq, Repr

/-- The final report built by handleFinalEvaluation and stored via
setFinalFeedback (MockInterview.jsx lines 315-321). -/
structure FinalFeedback where
  totalScore : ℤ
  feedback : List String
  individual_scores : List ℚ
  individual_feedback : List String
  deriving DecidableEq, Repr

/-- An outbound HTTP request (an axios.post call).  `evaluateAudio` and
`evaluateText` are the two requests the component actually issues.
`bulkEvaluate` (a single request carrying an ordered list of
(question, answer) pairs) is the request shape the specification describes
for finalize; it is declared here so that statements about such a request
can be made — the source never constructs it. -/
inductive Request where
  | evaluateAudio (resumeName question : String) (index : Nat)
  | evaluateText (question answer resumeContent : String)
  | bulkEvaluate (pairs : List (String × String))
  deriving DecidableEq, Repr

/-- The component state of MockInterview.jsx (lines 30-53), plus ghost
fields recording external effects: `audioStream` models audioStreamRef
(holding the id of the currently open stream), `streamsOpened` counts
successful getUserMedia calls, `forcedStops` counts timeout-forced stops,
and `requests` logs outbound HTTP requests in order. -/
structure SessionState where
  questions : List String
  resumeFileName : String
  loading : Bool
  error : String
  isRecording : Bool
  mediaRecorder : Bool
  currentQuestionIndex : Option Nat
  questionTimeLeft : ℤ
  typedAnswer : String
  inputMode : List (Nat × InputMode)
  results : List (String × QResult)
  finalFeedback : Option FinalFeedback
  audioStream : Option Nat
  streamsOpened : Nat
  forcedStops : Nat
  requests : List Request
  deriving DecidableEq, Repr

/-- AUDIO_TIME_SECONDS, the per-question time limit (line 10). -/
def AUDIO_TIME_SECONDS : ℤ := 60

/-- The component's initial state: questions from the analysis result,
all hooks at their useState defaults (lines 30-53). -/
def initialState (qs : List String) (resumeName : String) : SessionState :=
  { questions := qs
    resumeFileName := resumeName
    loading := false
    error := ""
    isRecording := false
    mediaRecorder := false
    currentQuestionIndex := none
    questionTimeLeft := AUDIO_TIME_SECONDS
    typedAnswer := ""
    inputMode := []
    results := []
    finalFeedback := none
    audioStream := none
    streamsOpened := 0
    forcedStops := 0
    requests := [] }

/-- getMode (line 66): `inputMode[qIndex] || 'audio'` — the stored mode for
a question index, defaulting to audio when unset. -/
def getMode (s : SessionState) (i : Nat) : InputMode :=
  match s.inputMode.find? (fun p => p.1 = i) with
  | some p => p.2
  | none => InputMode.audio

/-- getMode applied to the possibly-null currentQuestionIndex (line 204):
`inputMode[null]` is undefined in JS, so null also defaults to audio. -/
def getModeOpt (s : SessionState) : Option Nat → InputMode
  | none => InputMode.audio
  | some i => getMode s i

/-- Lookup in the results object, keyed by question text. -/
def lookupResult (m : List (String × QResult)) (q : String) : Option QResult :=
  (m.find? (fun p => p.1 = q)).map (fun p => p.2)

/-- JS object spread-update `{ ...prev, [key]: val }` on the results object:
an existing string key keeps its position with the new value; a new key is
appended (JS objects preserve insertion order for string keys). -/
def setResult : List (String × QResult) → String → QResult → List (String × QResult)
  | [], q, v => [(q, v)]
  | p :: t, q, v => if p.1 = q then (q, v) :: t else p :: setResult t q v

/-- Reading the stored answer text for a question: `(results[q] || {}).text`
rendered as a string — an unset question or undefined text behaves as the
empty string (MockInterview.jsx lines 363 and 478). -/
def readAnswer (s : SessionState) (q : String) : String :=
  ((lookupResult s.results q).bind (fun r => r.text)).getD ""

/-- Reading the stored answer for the question at index i. -/
def readAnswerAt (s : SessionState) (i : Nat) : String :=
  readAnswer s (s.questions.getD i "")

/-- The JSON body of a response from POST /interview/evaluate_audio, with
optional fields modelling possibly-missing JS object properties. -/
structure EvalResponse where
  score : Option ℚ
  individual_scores : List ℚ
  feedback : Option String
  individual_feedback : List String
  transcribed_text : Option String
  deriving DecidableEq, Repr

/-- `data.score || data.individual_scores?.[0]` (line 108): JS `||` falls
through when the left side is undefined or the falsy number 0. -/
def jsOrScore (d : EvalResponse) : Option ℚ :=
  match d.score with
  | some x => if x = 0 then d.individual_scores.head? else some x
  | none => d.individual_scores.head?

/-- `data.feedback || data.individual_feedback?.[0]` (line 109): JS `||`
falls through when the left side is undefined or the falsy empty string. -/
def jsOrFeedback (d : EvalResponse) : Option String :=
  match d.feedback with
  | some f => if f = "" then d.individual_feedback.head? else some f
  | none => d.individual_feedback.head?

/-- The error message set when audio evaluation fails (line 127). -/
def evalAudioFailMsg (index : Nat) (detail : String) : String :=
  "Evaluation failed for Q" ++ toString (index + 1) ++ " (Audio): " ++ detail

/-- The message of the Error thrown on a structurally incomplete backend
response (line 112). -/
def incompleteResponseMsg : String :=
  "Received an incomplete response from the server. Data structure mismatch."

/-- sendAudioForEvaluation (lines 86-131), modelled as the state reached
once the POST /interview/evaluate_audio promise settles with outcome
`resp`.  It clears the error, logs exactly one outbound request, and on a
successful, structurally complete response merges the evaluation into the
results object under the question text; on a network/backend error or an
incomplete response it only sets an error message.  loading is true during
the call and reset in the finally block, hence false in the settled state. -/
def sendAudioForEvaluation (index : Nat) (resp : Except String EvalResponse)
    (s : SessionState) : SessionState :=
  let q := s.questions.getD index ""
  let s1 := { s with
    requests := s.requests ++ [Request.evaluateAudio s.resumeFileName q index]
    error := "" }
  match resp with
  | Except.error detail =>
    { s1 with loading := false, error := evalAudioFailMsg index detail }
  | Except.ok d =>
    match jsOrScore d, jsOrFeedback d with
    | some sc, some fb =>
      { s1 with loading := false
                results := setResult s1.results q
                  { score := sc, feedback := fb, text := d.transcribed_text,
                    isAnswered := true } }
    | _, _ =>
      { s1 with loading := false,
                error := evalAudioFailMsg index incompleteResponseMsg }

/-- The transient message set when the per-question time limit forces a
stop (line 143). -/
def timeLimitMsg (index : Nat) : String :=
  "Time limit of 60 seconds reached for question " ++ toString (index + 1) ++
    ". Submitting answer."

/-- stopRecording (lines 134-152): guarded on a live recorder, an active
recording, and a matching question index; it stops all stream tracks and
clears audioStreamRef (modelled as audioStream := none), on timeout sets
the transient message, stops the recorder (which later triggers the
transcription request, counted by `forcedStops` when timeout-forced),
clears the recording flag and active index, and resets the countdown. -/
def stopRecording (index : Nat) (isTimeout : Bool) (s : SessionState) : SessionState :=
  if s.mediaRecorder = true ∧ s.isRecording = true ∧
      s.currentQuestionIndex = some index then
    { s with audioStream := none
             error := if isTimeout then timeLimitMsg index else s.error
             forcedStops := if isTimeout then s.forcedStops + 1 else s.forcedStops
             isRecording := false
             currentQuestionIndex := none
             questionTimeLeft := AUDIO_TIME_SECONDS }
  else s

/-- The error message set when getUserMedia rejects (line 198). -/
def micFailMsg (detail : String) : String :=
  "Cannot access microphone. Ensure permissions are granted. Error: " ++ detail

/-- The error message set when startRecording is called in text mode
(line 157). -/
def textModeMsg : String :=
  "Cannot start recording. Input mode is currently set to Text."

/-- startRecording (lines 155-200), modelled as the state reached once the
getUserMedia promise settles with outcome `mic`.  Text mode only sets an
error; an active recording or a pending evaluation returns unchanged
(line 160) before getUserMedia is ever called; a rejected getUserMedia
only sets an error (the stream assignment on line 164 is after the await,
so no stream is touched); on success a fresh stream is opened and stored,
a recorder is created, the index and countdown are set, and recording
starts. -/
def startRecording (index : Nat) (mic : Except String Unit)
    (s : SessionState) : SessionState :=
  if getMode s index ≠ InputMode.audio then { s with error := textModeMsg }
  else if s.isRecording = true ∨ s.loading = true then s
  else
    match mic with
    | Except.error detail => { s with error := micFailMsg detail }
    | Except.ok _ =>
      { s with audioStream := some s.streamsOpened
               streamsOpened := s.streamsOpened + 1
               mediaRecorder := true
               currentQuestionIndex := some index
               questionTimeLeft := AUDIO_TIME_SECONDS
               isRecording := true
               error := "" }

/-- One firing of the per-question timer interval (lines 203-225).  The
effect installs the interval only while the active question is in audio
mode, a recording is live, and time is positive; the interval callback
decrements, and at `prev <= 1` clears the interval and forces
`stopRecording(currentQuestionIndex, true)`.  The updater's `return 0` is
followed in React's update queue by stopRecording's reset of the countdown
to AUDIO_TIME_SECONDS, so the settled post-stop value is the reset one. -/
def tick (s : SessionState) : SessionState :=
  match s.currentQuestionIndex with
  | none => s
  | some idx =>
    if getMode s idx = InputMode.audio ∧ s.isRecording = true ∧
        0 < s.questionTimeLeft then
      if s.questionTimeLeft ≤ 1 then stopRecording idx true s
      else { s with questionTimeLeft := s.questionTimeLeft - 1 }
    else s

/-- Component unmount teardown.  The component's only effect cleanups are
the timer effect's clearInterval (line 219) and the navigation-check
effect, which has no cleanup; no unmount code stops the audio stream
tracks or clears audioStreamRef, so every field modelling a retained
resource is left untouched. -/
def unmountCleanup (s : SessionState) : SessionState := s

/-- The guard message of handleFinalEvaluation when nothing was answered
(line 288). -/
def noAnswerMsg : String :=
  "Please answer at least one question before finalizing the interview."

/-- The overall recommendation texts chosen from the average score
(lines 300-312). -/
def recommendationsFor (avg : ℚ) : List String :=
  if avg ≥ 8 then
    ["Outstanding performance! Your answers were **highly relevant, detailed, and demonstrated confidence**.",
     "Focus on maintaining this level of detail and confidence. Try to anticipate follow-up questions."]
  else if avg ≥ 6.5 then
    ["Very good! Most of your answers were solid. **Improve by consistently using quantified results** and the STAR method.",
     "Practice articulating the **impact** of your contributions more clearly in your responses."]
  else if avg ≥ 4 then
    ["Solid effort. Your responses were relevant but could use more depth. Focus on the **STAR method** for behavioral questions.",
     "Review your resume\x27s key achievements and ensure you can **link them explicitly** to the interview questions."]
  else
    ["Your responses were generally too brief or lacked specific evidence. **Review your resume content** and expected questions.",
     "Focus on the core skills and prepare **specific project examples** that directly address the question."]

/-- handleFinalEvaluation (lines 284-328): with no answered question it
only sets an error; otherwise it computes the final score locally from the
answered results — `Math.round((totalScoreSum / (answeredQuestions * 10)) * 100)`,
Math.round being floor of the argument plus one half — picks
recommendations from the average, and stores the report.  It issues no
HTTP request and leaves the requests log unchanged. -/
def handleFinalEvaluation (s : SessionState) : SessionState :=
  let answeredQuestions := s.results.length
  if answeredQuestions = 0 then { s with error := noAnswerMsg }
  else
    let totalScoreSum : ℚ := (s.results.map (fun p => p.2.score)).sum
    let finalScore : ℤ :=
      round ((totalScoreSum / ((answeredQuestions : ℚ) * 10)) * 100)
    let avg : ℚ := totalScoreSum / (answeredQuestions : ℚ)
    { s with finalFeedback := some {
        totalScore := finalScore
        feedback := recommendationsFor avg
        individual_scores := s.results.map (fun p => p.2.score)
        individual_feedback := s.results.map (fun p => p.2.feedback) } }

/-- A fresh idle session over one question. -/
def sIdle : SessionState :=
  initialState ["Describe a project you led."] "resume.pdf"

/-- A session over two questions with exactly the first one answered. -/
def sampleAnswered : SessionState :=
  { initialState
      ["Describe a project you led.", "What is your greatest strength?"]
      "resume.pdf" with
    results := [("Describe a project you led.",
      { score := 7, feedback := "Good depth.",
        text := some "I led the migration", isAnswered := true })] }

/-- A session with a live recording on its only question, two seconds left
on the countdown, and the opened stream held in the ref. -/
def sRecording : SessionState :=
  { initialState ["Describe a project you led."] "resume.pdf" with
    isRecording := true
    mediaRecorder := true
    currentQuestionIndex := some 0
    questionTimeLeft := 2
    audioStream := some 0
    streamsOpened := 1 }

/-- C1 (amended): a finalize call sends nothing to the external evaluation
gateway — the outbound request log is unchanged, so no (question, answer)
pair sequence is assembled for it at all — and the locally built report
has per-question arrays whose length equals the number of answered
questions, with no placeholder entries for unanswered ones. -/
theorem c1_finalize_builds_no_pairs (s : SessionState) (h : s.results ≠ []) :
    (handleFinalEvaluation s).requests = s.requests ∧
    ∃ f, (handleFinalEvaluation s).finalFeedback = some f ∧
      f.individual_scores.length = s.results.length ∧
      f.individual_feedback.length = s.results.length := by
  have hlen : ¬ s.results.length = 0 := by simpa using h
  refine ⟨by simp [handleFinalEvaluation, hlen], ?_⟩
  refine ⟨{ totalScore := round (((s.results.map (fun p => p.2.score)).sum /
        ((s.results.length : ℚ) * 10)) * 100)
            feedback := recommendationsFor ((s.results.map
              (fun p => p.2.score)).sum / (s.results.length : ℚ))
            individual_scores := s.results.map (fun p => p.2.score)
            individual_feedback := s.results.map (fun p => p.2.feedback) },
    by simp [handleFinalEvaluation, hlen], by simp, by simp⟩

/-- Witness for C1 at the concrete two-question session with one answer. -/
theorem c1_finalize_builds_no_pairs_witness :
    (handleFinalEvaluation sampleAnswered).requests = sampleAnswered.requests ∧
    ∃ f, (handleFinalEvaluation sampleAnswered).finalFeedback = some f ∧
      f.individual_scores.length = sampleAnswered.results.length ∧
      f.individual_feedback.length = sampleAnswered.results.length :=
  c1_finalize_builds_no_pairs sampleAnswered
    (by simp [sampleAnswered, initialState])

/-- C1 counterexample: finalizing the concrete session with two questions
and one answer appends no request carrying a (question, answer) pair list
of length questions.length — no request is appended at all. -/
theorem c1_counterexample :
    ¬ (∃ pairs : List (String × String),
        (handleFinalEvaluation sampleAnswered).requests =
          sampleAnswered.requests ++ [Request.bulkEvaluate pairs] ∧
        pairs.length = sampleAnswered.questions.length) := by
  rintro ⟨pairs, hreq, -⟩
  simp [handleFinalEvaluation, sampleAnswered, initialState] at hreq

/-- C2 (amended): finalize performs no outbound request at all — the
request log after one finalize call, and after a second finalize call on
the resulting state (whatever its status), equals the original log; the
call is idempotent in its outbound effect because that effect is empty,
but it never sends the one request the claim asserts. -/
theorem c2_finalize_sends_nothing (s : SessionState) :
    (handleFinalEvaluation s).requests = s.requests ∧
    (handleFinalEvaluation (handleFinalEvaluation s)).requests = s.requests := by
  have key : ∀ t : SessionState, (handleFinalEvaluation t).requests = t.requests := by
    intro t
    unfold handleFinalEvaluation
    by_cases h : t.results.length = 0 <;> simp [h]
  exact ⟨key s, (key _).trans (key s)⟩

/-- C2 counterexample: at the concrete session with one answered question,
finalize sends zero outbound requests, not exactly one. -/
theorem c2_counterexample :
    ¬ ((handleFinalEvaluation sampleAnswered).requests.length =
        sampleAnswered.requests.length + 1) := by
  simp [handleFinalEvaluation, sampleAnswered, initialState]

/-- C4: calling startRecording while a recording is already active leaves
the capture state Recording and opens no second media stream — the
recording flag stays true, the stream counter and the stored stream are
unchanged. -/
theorem c4_start_while_recording_is_noop (s : SessionState) (i : Nat)
    (mic : Except String Unit) (h : s.isRecording = true) :
    (startRecording i mic s).isRecording = true ∧
    (startRecording i mic s).streamsOpened = s.streamsOpened ∧
    (startRecording i mic s).audioStream = s.audioStream := by
  unfold startRecording
  by_cases hm : getMode s i = InputMode.audio <;> simp [hm, h]

/-- Witness for C4 at the concrete recording session. -/
theorem c4_start_while_recording_is_noop_witness :
    (startRecording 0 (Except.ok ()) sRecording).isRecording = true ∧
    (startRecording 0 (Except.ok ()) sRecording).streamsOpened =
      sRecording.streamsOpened ∧
    (startRecording 0 (Except.ok ()) sRecording).audioStream =
      sRecording.audioStream :=
  c4_start_while_recording_is_noop sRecording 0 (Except.ok ()) rfl

/-- C5: when the transcription/evaluation request fails with a
network/backend error, the results object and the final report are left
unchanged, the recording flag is untouched and loading is cleared (the
session stays in progress), and the failure surfaces as the evaluation
failure message for that question. -/
theorem c5_transcription_failure_leaves_answers (s : SessionState) (i : Nat)
    (detail : String) :
    (sendAudioForEvaluation i (Except.error detail) s).results = s.results ∧
    (sendAudioForEvaluation i (Except.error detail) s).finalFeedback =
      s.finalFeedback ∧
    (sendAudioForEvaluation i (Except.error detail) s).isRecording =
      s.isRecording ∧
    (sendAudioForEvaluation i (Except.error detail) s).loading = false ∧
    (sendAudioForEvaluation i (Except.error detail) s).error =
      evalAudioFailMsg i detail := by
  simp [sendAudioForEvaluation]

/-- C7: with the question in audio mode and no recording or evaluation in
flight, a failed getUserMedia leaves the capture state Idle — recording
flag false, stored stream unchanged, no stream opened — and surfaces the
microphone error message; a successful getUserMedia opens and stores a
fresh stream and transitions to Recording. -/
theorem c7_start_device_unavailable_vs_success (s : SessionState) (i : Nat)
    (detail : String) (hmode : getMode s i = InputMode.audio)
    (hrec : s.isRecording = false) (hload : s.loading = false) :
    ((startRecording i (Except.error detail) s).isRecording = false ∧
     (startRecording i (Except.error detail) s).audioStream = s.audioStream ∧
     (startRecording i (Except.error detail) s).streamsOpened =
       s.streamsOpened ∧
     (startRecording i (Except.error detail) s).error = micFailMsg detail) ∧
    ((startRecording i (Except.ok ()) s).isRecording = true ∧
     (startRecording i (Except.ok ()) s).audioStream =
       some s.streamsOpened ∧
     (startRecording i (Except.ok ()) s).streamsOpened =
       s.streamsOpened + 1) := by
  unfold startRecording
  simp [hmode, hrec, hload]

/-- Witness for C7 at the fresh idle session. -/
theorem c7_start_device_unavailable_vs_success_witness :
    ((startRecording 0 (Except.error "Permission denied") sIdle).isRecording
        = false ∧
     (startRecording 0 (Except.error "Permission denied") sIdle).audioStream
        = sIdle.audioStream ∧
     (startRecording 0 (Except.error "Permission denied") sIdle).streamsOpened
        = sIdle.streamsOpened ∧
     (startRecording 0 (Except.error "Permission denied") sIdle).error
        = micFailMsg "Permission denied") ∧
    ((startRecording 0 (Except.ok ()) sIdle).isRecording = true ∧
     (startRecording 0 (Except.ok ()) sIdle).audioStream =
       some sIdle.streamsOpened ∧
     (startRecording 0 (Except.ok ()) sIdle).streamsOpened =
       sIdle.streamsOpened + 1) :=
  c7_start_device_unavailable_vs_success sIdle 0 "Permission denied" rfl rfl rfl

/-- C10: finalizing with zero answered questions is rejected — the only
change is the error message; the final report and every other field are
exactly as before. -/
theorem c10_finalize_empty_rejected (s : SessionState) (h : s.results = []) :
    handleFinalEvaluation s = { s with error := noAnswerMsg } := by
  unfold handleFinalEvaluation
  simp [h]

/-- Witness for C10 at the fresh idle session. -/
theorem c10_finalize_empty_rejected_witness :
    handleFinalEvaluation sIdle = { sIdle with error := noAnswerMsg } :=
  c10_finalize_empty_rejected sIdle rfl

/-- Updating the results object stores the value under the key: the next
lookup of that key returns exactly the new value. -/
theorem lookupResult_setResult (m : List (String × QResult)) (q : String)
    (v : QResult) : lookupResult (setResult m q v) q = some v := by
  induction m with
  | nil => simp [setResult, lookupResult]
  | cons p t ih =>
    by_cases hpq : p.1 = q
    · simp [setResult, hpq, lookupResult]
    · simpa [setResult, hpq, lookupResult] using ih

/-- No handler outcome of the audio evaluation call changes the question
list. -/
theorem sendAudioForEvaluation_questions (i : Nat)
    (r : Except String EvalResponse) (s : SessionState) :
    (sendAudioForEvaluation i r s).questions = s.questions := by
  unfold sendAudioForEvaluation
  rcases r with d | d
  · rfl
  · dsimp only
    rcases jsOrScore d with _ | sc <;> rcases jsOrFeedback d with _ | fb <;> rfl

/-- A successful, structurally complete transcription response carrying
text t (score 7, nonempty feedback). -/
def okResp (t : String) : EvalResponse :=
  { score := some 7, individual_scores := [], feedback := some "Good answer.",
    individual_feedback := [], transcribed_text := some t }

/-- The defensive score access accepts the sample response. -/
theorem jsOrScore_okResp (t : String) : jsOrScore (okResp t) = some 7 := by
  norm_num [jsOrScore, okResp]

/-- The defensive feedback access accepts the sample response. -/
theorem jsOrFeedback_okResp (t : String) :
    jsOrFeedback (okResp t) = some "Good answer." := by
  simp [jsOrFeedback, okResp]

/-- A successful audio evaluation stores the transcription under the
question text, overwriting any previous entry for that question. -/
theorem sendAudioForEvaluation_okResp_results (i : Nat) (t : String)
    (s : SessionState) :
    (sendAudioForEvaluation i (Except.ok (okResp t)) s).results =
      setResult s.results (s.questions.getD i "")
        { score := 7, feedback := "Good answer.", text := some t,
          isAnswered := true } := by
  unfold sendAudioForEvaluation
  dsimp only
  rw [jsOrScore_okResp, jsOrFeedback_okResp]
  rfl

/-- C6 (amended): a second transcription result for the same question
overwrites the stored answer rather than concatenating — after merging
"hello" and then "world" the stored answer reads exactly the second text,
"world" — and reading a question with no stored result yields the empty
string, never failing. -/
theorem c6_second_transcription_overwrites (s : SessionState) (i : Nat)
    (t1 t2 : String) :
    readAnswerAt (sendAudioForEvaluation i (Except.ok (okResp t2))
      (sendAudioForEvaluation i (Except.ok (okResp t1)) s)) i = t2 ∧
    (∀ q, lookupResult s.results q = none → readAnswer s q = "") := by
  constructor
  · unfold readAnswerAt readAnswer
    rw [sendAudioForEvaluation_questions, sendAudioForEvaluation_questions,
      sendAudioForEvaluation_okResp_results, sendAudioForEvaluation_questions,
      lookupResult_setResult]
    rfl
  · intro q hq
    simp [readAnswer, hq]

/-- Witness for C6 at the fresh idle session. -/
theorem c6_second_transcription_overwrites_witness :
    readAnswerAt (sendAudioForEvaluation 0 (Except.ok (okResp "world"))
      (sendAudioForEvaluation 0 (Except.ok (okResp "hello")) sIdle)) 0 =
      "world" ∧
    readAnswer sIdle "An unasked question?" = "" := by
  obtain ⟨h1, h2⟩ := c6_second_transcription_overwrites sIdle 0 "hello" "world"
  exact ⟨h1, h2 "An unasked question?" rfl⟩

/-- C6 counterexample: merging the transcriptions "hello" then "world" for
question 0 of the concrete idle session stores "world", not the
concatenation "hello world". -/
theorem c6_counterexample :
    ¬ (readAnswerAt (sendAudioForEvaluation 0 (Except.ok (okResp "world"))
        (sendAudioForEvaluation 0 (Except.ok (okResp "hello")) sIdle)) 0 =
      "hello world") := by
  intro hcontra
  rw [readAnswerAt, readAnswer, sendAudioForEvaluation_questions,
    sendAudioForEvaluation_questions, sendAudioForEvaluation_okResp_results,
    sendAudioForEvaluation_questions, lookupResult_setResult] at hcontra
  simp at hcontra

/-- C8: the media stream is released on explicit stop and on the timeout
path (a tick at one second left forces the stop, which stops all tracks
and clears the ref), but component unmount runs no cleanup that touches
the stream: after unmount teardown of the concrete recording session the
stream handle is still held. -/
theorem c8_stream_released_on_stop_not_on_unmount :
    (stopRecording 0 false sRecording).audioStream = none ∧
    (tick { sRecording with questionTimeLeft := 1 }).audioStream = none ∧
    (unmountCleanup sRecording).audioStream = some 0 := by
  refine ⟨?_, ?_, rfl⟩
  · simp [stopRecording, sRecording, initialState]
  · simp [tick, getMode, stopRecording, sRecording, initialState]

/-- C9: over n >= 1 answered questions with per-question scores in [0,10],
the reported total score is round(100 * sum / (10 * n)) where n is the
number of answered questions, it lies in [0,100], and it is independent of
the total number of questions in the session. -/
theorem c9_final_score_normalized (s : SessionState)
    (hne : s.results ≠ [])
    (hb : ∀ p ∈ s.results, 0 ≤ p.2.score ∧ p.2.score ≤ 10) :
    ∃ f, (handleFinalEvaluation s).finalFeedback = some f ∧
      f.totalScore =
        round ((100 * (s.results.map (fun p => p.2.score)).sum) /
          (10 * (s.results.length : ℚ))) ∧
      0 ≤ f.totalScore ∧ f.totalScore ≤ 100 ∧
      (∀ qs : List String,
        (handleFinalEvaluation { s with questions := qs }).finalFeedback =
          (handleFinalEvaluation s).finalFeedback) := by
  have hlen : ¬ s.results.length = 0 := by simpa using hne
  have hlpos : (0:ℚ) < (s.results.length : ℚ) := by
    exact_mod_cast Nat.pos_of_ne_zero hlen
  have hsum0 : 0 ≤ (s.results.map (fun p => p.2.score)).sum := by
    apply List.sum_nonneg
    intro x hx
    obtain ⟨p, hp, rfl⟩ := List.mem_map.mp hx
    exact (hb p hp).1
  have hsum10 : (s.results.map (fun p => p.2.score)).sum ≤
      10 * (s.results.length : ℚ) := by
    have h := List.sum_le_card_nsmul (s.results.map (fun p => p.2.score)) 10
      (by
        intro x hx
        obtain ⟨p, hp, rfl⟩ := List.mem_map.mp hx
        exact (hb p hp).2)
    simpa [nsmul_eq_mul, mul_comm] using h
  have hlo : (0:ℚ) ≤ ((s.results.map (fun p => p.2.score)).sum /
      ((s.results.length : ℚ) * 10)) * 100 := by
    apply mul_nonneg _ (by norm_num)
    exact div_nonneg hsum0 (by positivity)
  have hhi : ((s.results.map (fun p => p.2.score)).sum /
      ((s.results.length : ℚ) * 10)) * 100 ≤ 100 := by
    rw [div_mul_eq_mul_div, div_le_iff₀ (by positivity)]
    linarith
  have hql : ((s.results.map (fun p => p.2.score)).sum /
        ((s.results.length : ℚ) * 10)) * 100 =
      (100 * (s.results.map (fun p => p.2.score)).sum) /
        (10 * (s.results.length : ℚ)) := by
    field_simp
    ring
  refine ⟨{ totalScore := round (((s.results.map (fun p => p.2.score)).sum /
        ((s.results.length : ℚ) * 10)) * 100)
            feedback := recommendationsFor ((s.results.map
              (fun p => p.2.score)).sum / (s.results.length : ℚ))
            individual_scores := s.results.map (fun p => p.2.score)
            individual_feedback := s.results.map (fun p => p.2.feedback) },
    by simp [handleFinalEvaluation, hlen], ?_, ?_, ?_, ?_⟩
  · exact congrArg round hql
  · rw [round_eq]
    exact Int.le_floor.mpr (by push_cast; linarith)
  · dsimp only
    rw [round_eq]
    have h101 := Int.floor_lt.mpr
      (show ((s.results.map (fun p => p.2.score)).sum /
          ((s.results.length : ℚ) * 10)) * 100 + 1/2 < ((101:ℤ):ℚ) by
        push_cast; linarith)
    omega
  · intro qs
    simp [handleFinalEvaluation, hlen]

/-- Witness for C9 at the concrete session with one answered question of
score 7: the report exists, scores 70 out of 100, within bounds. -/
theorem c9_final_score_normalized_witness :
    ∃ f, (handleFinalEvaluation sampleAnswered).finalFeedback = some f ∧
      f.totalScore =
        round ((100 * (sampleAnswered.results.map (fun p => p.2.score)).sum) /
          (10 * (sampleAnswered.results.length : ℚ))) ∧
      0 ≤ f.totalScore ∧ f.totalScore ≤ 100 ∧
      (∀ qs : List String,
        (handleFinalEvaluation { sampleAnswered with questions := qs }).finalFeedback =
          (handleFinalEvaluation sampleAnswered).finalFeedback) :=
  c9_final_score_normalized sampleAnswered
    (by simp [sampleAnswered, initialState])
    (by
      intro p hp
      simp only [sampleAnswered, initialState, List.mem_singleton] at hp
      subst hp
      norm_num)

/-- A timer tick with no live recording changes nothing: the interval is
not installed. -/
theorem tick_of_not_recording (s : SessionState) (h : s.isRecording = false) :
    tick s = s := by
  unfold tick
  cases hc : s.currentQuestionIndex with
  | none => rfl
  | some idx => simp [h]

/-- Iterated ticks on a non-recording state change nothing. -/
theorem tick_iterate_of_not_recording (m : Nat) (t : SessionState)
    (h : t.isRecording = false) : tick^[m] t = t := by
  induction m with
  | zero => rfl
  | succ m ih => rw [Function.iterate_succ_apply, tick_of_not_recording t h, ih]

/-- While more than one second remains on a live audio recording, a tick
only decrements the countdown. -/
theorem tick_decrement (s : SessionState) (i : Nat)
    (hq : s.currentQuestionIndex = some i) (ha : getMode s i = InputMode.audio)
    (hr : s.isRecording = true) (ht : 1 < s.questionTimeLeft) :
    tick s = { s with questionTimeLeft := s.questionTimeLeft - 1 } := by
  unfold tick
  rw [hq]
  dsimp only
  rw [if_pos ⟨ha, hr, by omega⟩, if_neg (by omega)]

/-- At one second left the tick clears the interval and forces the timeout
stop. -/
theorem tick_fires (s : SessionState) (i : Nat)
    (hq : s.currentQuestionIndex = some i) (ha : getMode s i = InputMode.audio)
    (hr : s.isRecording = true) (ht : s.questionTimeLeft = 1) :
    tick s = stopRecording i true s := by
  unfold tick
  rw [hq]
  dsimp only
  rw [if_pos ⟨ha, hr, by omega⟩, if_pos (by omega)]

/-- A tick never makes a nonnegative countdown negative. -/
theorem tick_nonneg (s : SessionState) (h : 0 ≤ s.questionTimeLeft) :
    0 ≤ (tick s).questionTimeLeft := by
  unfold tick
  cases hc : s.currentQuestionIndex with
  | none => exact h
  | some idx =>
    dsimp only
    by_cases h1 : getMode s idx = InputMode.audio ∧ s.isRecording = true ∧
        0 < s.questionTimeLeft
    · rw [if_pos h1]
      by_cases h2 : s.questionTimeLeft ≤ 1
      · rw [if_pos h2]
        unfold stopRecording
        by_cases h3 : s.mediaRecorder = true ∧ s.isRecording = true ∧
            s.currentQuestionIndex = some idx
        · rw [if_pos h3]
          norm_num [AUDIO_TIME_SECONDS]
        · rw [if_neg h3]
          exact h
      · rw [if_neg h2]
        show 0 ≤ s.questionTimeLeft - 1
        omega
    · rw [if_neg h1]
      exact h

/-- Counting a live audio recording down from n + 1 seconds, n ticks bring
the countdown to exactly one second with no other state change. -/
theorem tick_iterate_countdown (n : Nat) : ∀ (s : SessionState) (i : Nat),
    s.currentQuestionIndex = some i → getMode s i = InputMode.audio →
    s.isRecording = true → s.questionTimeLeft = (n : ℤ) + 1 →
    tick^[n] s = { s with questionTimeLeft := 1 } := by
  induction n with
  | zero =>
    intro s i hq ha hr ht
    simp only [Function.iterate_zero, id_eq]
    cases s
    simp_all
  | succ n ih =>
    intro s i hq ha hr ht
    rw [Function.iterate_succ_apply,
      tick_decrement s i hq ha hr (by omega)]
    exact ih { s with questionTimeLeft := s.questionTimeLeft - 1 } i hq ha hr
      (by show s.questionTimeLeft - 1 = (n : ℤ) + 1; omega)

/-- C3: for a session with a live audio recording and n + 1 seconds on the
countdown, the countdown is nonnegative at every observable state along
the tick trace, after n + 1 ticks exactly one forced (timeout) stop has
been triggered and the recording has ended, and every further tick leaves
the state completely unchanged — the timer stops and the zero-trigger
never fires again. -/
theorem c3_timer_fires_exactly_once (s : SessionState) (i : Nat) (n : Nat)
    (hm : s.mediaRecorder = true) (hr : s.isRecording = true)
    (hq : s.currentQuestionIndex = some i) (ha : getMode s i = InputMode.audio)
    (ht : s.questionTimeLeft = (n : ℤ) + 1) :
    (∀ k : Nat, 0 ≤ (tick^[k] s).questionTimeLeft) ∧
    (tick^[n + 1] s).forcedStops = s.forcedStops + 1 ∧
    (tick^[n + 1] s).isRecording = false ∧
    (∀ m : Nat, tick^[m] (tick^[n + 1] s) = tick^[n + 1] s) := by
  have hone : tick^[n + 1] s =
      stopRecording i true { s with questionTimeLeft := 1 } := by
    rw [Function.iterate_succ_apply', tick_iterate_countdown n s i hq ha hr ht]
    exact tick_fires _ i hq ha hr rfl
  have hguard : ({ s with questionTimeLeft := 1 } : SessionState).mediaRecorder
        = true ∧
      ({ s with questionTimeLeft := 1 } : SessionState).isRecording = true ∧
      ({ s with questionTimeLeft := 1 } : SessionState).currentQuestionIndex
        = some i := ⟨hm, hr, hq⟩
  refine ⟨?_, ?_, ?_, ?_⟩
  · intro k
    induction k with
    | zero =>
      simpa using (by omega : (0:ℤ) ≤ s.questionTimeLeft)
    | succ k ihk =>
      rw [Function.iterate_succ_apply']
      exact tick_nonneg _ ihk
  · rw [hone]
    unfold stopRecording
    rw [if_pos hguard]
    simp
  · rw [hone]
    unfold stopRecording
    rw [if_pos hguard]
  · intro m
    apply tick_iterate_of_not_recording
    rw [hone]
    unfold stopRecording
    rw [if_pos hguard]

/-- Witness for C3 at the concrete recording session with two seconds
left: five ticks stay nonnegative, two ticks force exactly one stop and
end the recording, and three further ticks change nothing. -/
theorem c3_timer_fires_exactly_once_witness :
    0 ≤ (tick^[5] sRecording).questionTimeLeft ∧
    (tick^[2] sRecording).forcedStops = sRecording.forcedStops + 1 ∧
    (tick^[2] sRecording).isRecording = false ∧
    tick^[3] (tick^[2] sRecording) = tick^[2] sRecording := by
  obtain ⟨h1, h2, h3, h4⟩ := c3_timer_fires_exactly_once sRecording 0 1
    rfl rfl rfl rfl (by norm_num [sRecording, initialState])
  exact ⟨h1 5, h2, h3, h4 3⟩

end MockInterview
